import Mathlib

/-!
Shallow embedding of the Session Connection Manager + Message Ingestion &
Automation Pipeline of src/server/whatsapp-manager.ts (the WhatsAppManager
class), together with the automation-rule row shape of src/shared/schema.ts.
Line numbers in doc comments refer to src/server/whatsapp-manager.ts unless
another file is named.
-/

/-! ## JavaScript-boundary helpers -/

/-- Truthiness of an optional JS string field: `undefined` and `""` are falsy. -/
def optTruthy : Option String → Bool
  | none => false
  | some s => decide (¬ s = "")

/-- JS `x || ""` on an optional string. -/
def jsOrEmpty : Option String → String
  | none => ""
  | some s => s

/-- JS `x || d` on an optional string: `undefined` and `""` fall back to `d`. -/
def jsOrD : Option String → String → String
  | none, d => d
  | some s, d => if s = "" then d else s

/-- JS template interpolation of a possibly-undefined string field:
`undefined` renders as the literal text `"undefined"`. -/
def jsTemplate : Option String → String
  | none => "undefined"
  | some s => s

/-- Whether the pattern begins the list, character by character. -/
def leadMatch : List Char → List Char → Bool
  | _, [] => true
  | [], _ :: _ => false
  | c :: cs, p :: ps => c == p && leadMatch cs ps

/-- Whether the pattern occurs contiguously inside the list. -/
def subMatch : List Char → List Char → Bool
  | [], pat => pat.isEmpty
  | c :: cs, pat => leadMatch (c :: cs) pat || subMatch cs pat

/-- JS `s.includes(pat)`: contiguous substring test. (JS compares UTF-16 code
units; on the ASCII keywords and markers this code compares, the two agree.) -/
def jsIncludes (s pat : String) : Bool :=
  subMatch s.data pat.data

/-- JS `s.split("@")[0]`: the characters before the first `'@'`, the whole
string when there is none (used at line 140 to derive the contact number). -/
def jidUser (s : String) : String :=
  String.mk (s.data.takeWhile (fun c => !(c == '@')))

/-- The whitespace characters JS `trim()` strips (the ones that can occur in
the text payloads this code handles). -/
def isWsp (c : Char) : Bool :=
  c == ' ' || c == '\t' || c == '\n' || c == '\r'

/-- JS `s.trim()`: leading and trailing whitespace removed. -/
def jsTrim (s : String) : String :=
  String.mk (((s.data.dropWhile isWsp).reverse.dropWhile isWsp).reverse)

/-- JS `toLowerCase()` on one character: ASCII letters are lowered; JS and
this model agree on ASCII (the keywords this code compares are ASCII). -/
def lowerChar (c : Char) : Char :=
  if 'A' ≤ c ∧ c ≤ 'Z' then Char.ofNat (c.toNat + 32) else c

/-- JS `s.toLowerCase()`. -/
def jsLower (s : String) : String :=
  String.mk (s.data.map lowerChar)

/-! ## Inbound payload model (the `msg.message` object)

The handler probes a fixed set of optional fields of the payload object
(lines 154-194); each probed field is one optional component here. -/

/-- The `extendedTextMessage` payload: the handler reads only `.text`. -/
structure ExtendedTextMessage where
  text : Option String

/-- An `imageMessage` or `videoMessage` payload: the handler reads only the
caption. -/
structure MediaMessage where
  caption : Option String

/-- A `documentMessage` payload: the handler reads the caption and file name. -/
structure DocumentMessage where
  caption : Option String
  fileName : Option String

/-- A `contactMessage` payload: the handler reads only the display name. -/
structure ContactMessage where
  displayName : Option String

/-- The inbound payload object. Fields the handler only tests for presence are
Bool. An object with every field absent is an unrecognized payload shape. -/
structure MsgContent where
  conversation : Option String := none
  extendedTextMessage : Option ExtendedTextMessage := none
  imageMessage : Option MediaMessage := none
  videoMessage : Option MediaMessage := none
  documentMessage : Option DocumentMessage := none
  audioMessage : Bool := false
  stickerMessage : Bool := false
  contactMessage : Option ContactMessage := none

/-- `messageContent.imageMessage?.caption` (line 164). -/
def imageCaption (mc : MsgContent) : Option String :=
  mc.imageMessage.bind (fun m => m.caption)

/-- `messageContent.videoMessage?.caption` (line 167). -/
def videoCaption (mc : MsgContent) : Option String :=
  mc.videoMessage.bind (fun m => m.caption)

/-- `messageContent.documentMessage?.caption` (line 170). -/
def docCaption (mc : MsgContent) : Option String :=
  mc.documentMessage.bind (fun d => d.caption)

/-- The fallback extraction chain of handleIncomingMessage (lines 154-194).
The probe of `extractMessageContent(messageContent).text` just before it
(lines 146-151) always leaves `messageText` empty: the library function only
unwraps wrapper payloads and returns a payload object, which has no `text`
field, so the chain below is the extraction that actually runs. -/
def messageTextRaw (mc : MsgContent) : String :=
  if optTruthy mc.conversation then jsOrEmpty mc.conversation
  else if mc.extendedTextMessage.isSome then
    jsOrEmpty (mc.extendedTextMessage.bind (fun e => e.text))
  else if optTruthy (imageCaption mc) then jsOrEmpty (imageCaption mc)
  else if optTruthy (videoCaption mc) then jsOrEmpty (videoCaption mc)
  else if optTruthy (docCaption mc) then jsOrEmpty (docCaption mc)
  else if mc.audioMessage then "[Audio message]"
  else if mc.imageMessage.isSome then "[Image]"
  else if mc.videoMessage.isSome then "[Video]"
  else if mc.documentMessage.isSome then
    "[Document: " ++ jsOrD (mc.documentMessage.bind (fun d => d.fileName)) "file" ++ "]"
  else if mc.stickerMessage then "[Sticker]"
  else if mc.contactMessage.isSome then
    "[Contact: " ++ jsTemplate (mc.contactMessage.bind (fun c => c.displayName)) ++ "]"
  else "[Message]"

/-- Message normalization (lines 144-205): the extraction chain followed by
the final guard `if (!messageText || messageText.trim() === "")` that replaces
an empty or all-whitespace result with `"[Message]"` (lines 202-205). -/
def extractMessageText (mc : MsgContent) : String :=
  let t := messageTextRaw mc
  if t = "" ∨ jsTrim t = "" then "[Message]" else t

/-! ## Automation rules (src/shared/schema.ts lines 119-127) and matching -/

/-- A row of the `chatbot_rules` table: owner, optional session scoping,
keyword, response text, active flag. -/
structure ChatbotRule where
  id : String
  userId : String
  sessionId : Option String
  keyword : String
  response : String
  isActive : Bool
deriving DecidableEq

/-- The per-rule predicate of the match at lines 264-268:
`rule.isActive && messageText.toLowerCase().includes(rule.keyword.toLowerCase())`.
The rule's `sessionId` is not consulted. -/
def ruleMatches (messageText : String) (rule : ChatbotRule) : Bool :=
  rule.isActive && jsIncludes (jsLower messageText) (jsLower rule.keyword)

/-- `chatbotRules.find(...)` (lines 263-268): the first matching rule in
retrieval order; the rule list is the result of
`storage.getChatbotRulesByUserId(userId)`. -/
def matchedRuleFor (rules : List ChatbotRule) (messageText : String) : Option ChatbotRule :=
  rules.find? (ruleMatches messageText)

/-! ## Session Registry (the `connections` JS Map, line 23) -/

/-- One registry entry (the WhatsAppConnection record, lines 15-20); the
socket handle is modelled by its presence. -/
structure ConnInfo where
  hasSock : Bool
  qrCode : Option String
  status : String
  sessionId : String

/-- JS `Map.set`: replace the value at the key if present (keeping insertion
order), append otherwise. -/
def mapSet {α : Type} : List (String × α) → String → α → List (String × α)
  | [], k, v => [(k, v)]
  | (k', v') :: rest, k, v =>
    if k' = k then (k, v) :: rest else (k', v') :: mapSet rest k v

/-- JS `Map.get`. -/
def mapGet {α : Type} (m : List (String × α)) (k : String) : Option α :=
  (m.find? (fun e => decide (e.1 = k))).map (fun e => e.2)

/-- JS `Map.delete`. -/
def mapDelete {α : Type} (m : List (String × α)) (k : String) : List (String × α) :=
  m.filter (fun e => decide (¬ e.1 = k))

/-- The keys of the registry, in order. -/
def mapKeys {α : Type} (m : List (String × α)) : List String :=
  m.map (fun e => e.1)

/-- `this.connections.set(sessionId, { sock, qrCode: null, status: "connecting",
sessionId })` — the registration at the end of createSession (lines 113-118). -/
def registerConnection (m : List (String × ConnInfo)) (sessionId : String) :
    List (String × ConnInfo) :=
  mapSet m sessionId ⟨true, none, "connecting", sessionId⟩

/-! ## Connection close handling (lines 71-85) -/

/-- Baileys `DisconnectReason.loggedOut` (external library constant). -/
def loggedOutCode : Nat := 401

/-- What the close branch leaves behind: the registry, the persisted session
statuses, and the delay of the scheduled re-creation when one was scheduled. -/
structure CloseResult where
  registry : List (String × ConnInfo)
  sessionStatus : List (String × String)
  scheduledReconnect : Option (String × Nat)

/-- The `connection === "close"` branch of the connection.update handler
(lines 71-85). `statusCode` is
`(lastDisconnect?.error as Boom)?.output?.statusCode` (`none` when the close
event carries no error); `shouldReconnect` is its inequality with
`DisconnectReason.loggedOut`. On reconnect: the only effect is a timer
`setTimeout(() => this.createSession(sessionId, userId), 3000)` re-creating
the same session after 3000 ms. On logout: status is persisted as
"disconnected" via `storage.updateWhatsappSession` and the registry entry is
deleted, and no timer is scheduled. -/
def onConnectionClose (reg : List (String × ConnInfo))
    (store : List (String × String)) (sessionId : String)
    (statusCode : Option Nat) : CloseResult :=
  if ¬ statusCode = some loggedOutCode then
    ⟨reg, store, some (sessionId, 3000)⟩
  else
    ⟨mapDelete reg sessionId, mapSet store sessionId "disconnected", none⟩

/-! ## Ingestion pipeline (handleIncomingMessage, lines 124-276) -/

/-- A Conversation row (schema.ts lines 67-76; no uniqueness constraint is
declared on the (session_id, contact_number) pair). -/
structure ConvRow where
  id : Nat
  sessionId : String
  contactName : String
  contactNumber : String
  lastMessage : String
  unreadCount : Nat
deriving DecidableEq

/-- A Message row (schema.ts lines 95-102), the fields the handler writes. -/
structure MsgRow where
  conversationId : Nat
  content : String
  fromMe : Bool
  status : String

/-- One invocation of the Outbound Dispatcher (`this.sendMessage(sessionId,
contactNumber, matchedRule.response)`, line 271). -/
structure SendCall where
  sessionId : String
  toAddr : String
  text : String
deriving DecidableEq

/-- State the pipeline touches: conversation rows, the id counter of the
store, message rows, and the dispatcher invocations made so far. -/
structure PipeState where
  convs : List ConvRow := []
  nextId : Nat := 0
  msgs : List MsgRow := []
  sends : List SendCall := []

/-- The envelope key (`msg.key`): remote address and the outbound-by-us flag. -/
structure WAKey where
  remoteJid : Option String
  fromMe : Bool

/-- The inbound envelope (`msg`): key, optional payload, push display name. -/
structure WAMsg where
  key : WAKey
  message : Option MsgContent
  pushName : Option String

/-- `storage.getConversationsBySessionId(sessionId)` followed by
`.find(c => c.contactNumber === contactNumber)` (lines 213-214). -/
def findConversation (convs : List ConvRow) (sessionId contactNumber : String) :
    Option ConvRow :=
  (convs.filter (fun c => decide (c.sessionId = sessionId))).find?
    (fun c => decide (c.contactNumber = contactNumber))

/-- The update of an existing conversation (lines 238-246): last message,
time, unread counter incremented by one. -/
def updateConvRows (convs : List ConvRow) (convId : Nat) (messageText : String) :
    List ConvRow :=
  convs.map (fun c =>
    if c.id = convId then
      { c with lastMessage := messageText, unreadCount := c.unreadCount + 1 }
    else c)

/-- handleIncomingMessage (lines 124-276) as one uninterleaved run in which
every storage call succeeds: the guard on `remoteJid`/content (129-132), the
outbound-by-us skip (135-138), contact derivation (140-141), normalization
(144-205), conversation resolution (209-247), the message append (250-257),
and the rule match with its dispatcher invocation (263-272). `rules` is the
result of `storage.getChatbotRulesByUserId(userId)`. -/
def handleIncoming (sessionId : String) (msg : WAMsg)
    (rules : List ChatbotRule) (st : PipeState) : PipeState :=
  match msg.key.remoteJid, msg.message with
  | none, _ => st
  | some _, none => st
  | some jid, some mc =>
    if jid = "" then st
    else if msg.key.fromMe then st
    else
      let contactNumber := jidUser jid
      let contactName := jsOrD msg.pushName contactNumber
      let messageText := extractMessageText mc
      let resolved : List ConvRow × Nat × Nat :=
        match findConversation st.convs sessionId contactNumber with
        | some conv => (updateConvRows st.convs conv.id messageText, st.nextId, conv.id)
        | none =>
          (st.convs ++ [⟨st.nextId, sessionId, contactName, contactNumber, messageText, 1⟩],
           st.nextId + 1, st.nextId)
      let msgs1 := st.msgs ++ [(⟨resolved.2.2, messageText, false, "delivered"⟩ : MsgRow)]
      let sends1 :=
        match matchedRuleFor rules messageText with
        | some rule => st.sends ++ [⟨sessionId, contactNumber, rule.response⟩]
        | none => st.sends
      ⟨resolved.1, resolved.2.1, msgs1, sends1⟩

/-! ## Outbound Dispatcher (sendMessage, lines 278-294) -/

/-- sendMessage (lines 278-294). `transportOk` tells whether the transport
call `connection.sock.sendMessage(jid, { text })` succeeds; when it throws,
the surrounding catch returns `false` (lines 290-293). The result is the
boolean the caller gets, paired with the jid handed to the transport (`none`
when no send was attempted). The function is total: no path throws. -/
def sendMessageRun (reg : List (String × ConnInfo)) (sessionId toAddr : String)
    (transportOk : Bool) : Bool × Option String :=
  match mapGet reg sessionId with
  | none => (false, none)
  | some conn =>
    if ¬ conn.hasSock then (false, none)
    else if ¬ conn.status = "connected" then (false, none)
    else
      let jid := if jsIncludes toAddr "@" then toAddr else toAddr ++ "@s.whatsapp.net"
      if transportOk then (true, some jid) else (false, some jid)

/-! ## Explicit disconnect (disconnectSession, lines 296-338) -/

/-- Which of the teardown operations may fail; each failure is caught and
logged by its own try/catch (logout 299-305, socket end 307-313, status
persist 317-323, credential cleanup 330-337). -/
structure DiscFaults where
  logoutFails : Bool
  endFails : Bool
  updateFails : Bool
  rmFails : Bool

/-- The teardown operations, in the order the code attempts them. -/
inductive TeardownStep
  | logout
  | endSock
  | persistStatus
  | removeRegistry
  | rmAuth
deriving DecidableEq

/-- State disconnectSession touches: the registry, the persisted session
statuses, and the per-session durable credential directories (`.auth-sessions/
<sessionId>`), modelled by the list of session ids that have one. -/
structure ManagerState where
  connections : List (String × ConnInfo)
  sessionStatus : List (String × String)
  authFiles : List String

/-- disconnectSession (lines 296-338): best-effort logout and socket end when
a handle with a socket exists, status persisted as "disconnected", registry
entry removed, credential directory removed when present. A failing operation
leaves its state unchanged (caught and logged); the returned list records the
operations that were attempted, in order. -/
def disconnectSessionRun (f : DiscFaults) (st : ManagerState) (sessionId : String) :
    ManagerState × List TeardownStep :=
  let sockSteps : List TeardownStep :=
    match mapGet st.connections sessionId with
    | some c => if c.hasSock then [TeardownStep.logout, TeardownStep.endSock] else []
    | none => []
  let status1 :=
    if f.updateFails then st.sessionStatus
    else mapSet st.sessionStatus sessionId "disconnected"
  let conns1 := mapDelete st.connections sessionId
  let authStep : List String × List TeardownStep :=
    if sessionId ∈ st.authFiles then
      (if f.rmFails then st.authFiles
       else st.authFiles.filter (fun x => decide (¬ x = sessionId)),
       [TeardownStep.rmAuth])
    else (st.authFiles, [])
  (⟨conns1, status1, authStep.1⟩,
   sockSteps ++ [TeardownStep.persistStatus, TeardownStep.removeRegistry] ++ authStep.2)

/-! ## Interleaved conversation creation (the race of lines 209-247)

Two ingestions of messages for the same (session, contact) can have every
storage call interleave (each `await` suspends). Only the conversation-
resolution part of the handler decides how many Conversation rows exist, so
the thread below runs exactly that part, one storage call per step. -/

/-- The conversation store as the resolution steps see it. -/
structure RaceStore where
  convs : List ConvRow := []
  nextId : Nat := 0

/-- `storage.createConversation` — DatabaseStorage.createConversation in
src/server/auth.ts (the storage-module document segment, lines 188-190): a
plain `db.insert(conversations).values(...).returning()`. The `conversations`
table (shared/schema.ts lines 67-76) declares no unique index on (session_id,
contact_number), so the insert succeeds for a pair that is already present:
it assigns the next row id and appends the row. A duplicate pair never makes
this call fail. -/
def createConversationOp (st : RaceStore)
    (sessionId contactName contactNumber lastMessage : String) :
    RaceStore × ConvRow :=
  let row : ConvRow := ⟨st.nextId, sessionId, contactName, contactNumber, lastMessage, 1⟩
  (⟨st.convs ++ [row], st.nextId + 1⟩, row)

/-- Where one ingestion stands in the conversation resolution: before the
existence check (lines 212-217), before the create (221-228), before the
recovery re-query of the catch (232-235), before the update of a found row
(238-246), finished with a row, or finished by propagating the create error
(line 235: `if (!conversation) throw e`). -/
inductive IngestPhase
  | toQuery
  | toCreate
  | toRequery
  | toUpdate (convId : Nat)
  | done (convId : Nat)
  | threw
deriving DecidableEq

/-- One ingestion of an inbound envelope, reduced to the fields the
conversation resolution reads. `createFails` injects a storage failure into
this ingestion's createConversation call — the failure the try/catch at lines
221-236 is there for (the insert can fail for storage reasons such as the
session foreign key of schema.ts line 69 or lost connectivity; it never fails
for duplication, which the schema does not constrain). -/
structure IngestThread where
  phase : IngestPhase
  sessionId : String
  contactName : String
  contactNumber : String
  messageText : String
  createFails : Bool

/-- One atomic storage call of the resolution (one `await`): the existence
check, the create with its catch, the recovery re-query, or the update. A
create that does not fail always succeeds and appends its row — the store
never rejects a duplicate — so the catch arm (toRequery) is entered only via
an injected storage failure, never because of the concurrent duplicate. -/
def ingestStep (st : RaceStore) (t : IngestThread) :
    RaceStore × IngestThread :=
  match t.phase with
  | IngestPhase.toQuery =>
    match findConversation st.convs t.sessionId t.contactNumber with
    | some conv => (st, { t with phase := IngestPhase.toUpdate conv.id })
    | none => (st, { t with phase := IngestPhase.toCreate })
  | IngestPhase.toCreate =>
    if t.createFails then (st, { t with phase := IngestPhase.toRequery })
    else
      let p := createConversationOp st t.sessionId t.contactName
        t.contactNumber t.messageText
      (p.1, { t with phase := IngestPhase.done p.2.id })
  | IngestPhase.toRequery =>
    match findConversation st.convs t.sessionId t.contactNumber with
    | some conv => (st, { t with phase := IngestPhase.done conv.id })
    | none => (st, { t with phase := IngestPhase.threw })
  | IngestPhase.toUpdate convId =>
    (⟨updateConvRows st.convs convId t.messageText, st.nextId⟩,
     { t with phase := IngestPhase.done convId })
  | _ => (st, t)

/-- Interleaved run of two ingestions under a schedule: `true` steps the
first thread, `false` the second. -/
def runSched :
    List Bool → RaceStore → IngestThread → IngestThread →
    RaceStore × IngestThread × IngestThread
  | [], st, t1, t2 => (st, t1, t2)
  | b :: rest, st, t1, t2 =>
    if b then
      let p := ingestStep st t1
      runSched rest p.1 p.2 t2
    else
      let p := ingestStep st t2
      runSched rest p.1 t1 p.2

/-- How many Conversation rows exist for a (session, contact address) pair. -/
def convCountFor (st : RaceStore) (sessionId contactNumber : String) : Nat :=
  st.convs.countP (fun c =>
    decide (c.sessionId = sessionId ∧ c.contactNumber = contactNumber))

/-- First ingestion of the race: a message from contact 15551234 on session s1. -/
def raceT1 : IngestThread :=
  ⟨IngestPhase.toQuery, "s1", "Alice", "15551234", "hello", false⟩

/-- Second ingestion of the race: another message from the same contact on
the same session. -/
def raceT2 : IngestThread :=
  ⟨IngestPhase.toQuery, "s1", "Alice", "15551234", "hi again", false⟩

/-- The second ingestion again, with its create call failed by the store
(a storage fault, the only way this insert fails). -/
def raceT2f : IngestThread :=
  ⟨IngestPhase.toQuery, "s1", "Alice", "15551234", "hi again", true⟩

/-- The claim's interleaving: both existence checks complete before either
create does, then the creates run one after the other. -/
def raceSchedule : List Bool := [true, false, true, false]

/-- The same interleaving continued by the second ingestion's recovery
re-query (the catch path). -/
def raceScheduleRetry : List Bool := [true, false, true, false, false]

/-! ## Helper lemmas -/

theorem length_pos_of_ne_empty (s : String) (h : ¬ s = "") : 0 < s.length := by
  cases s with
  | mk data =>
    cases data with
    | nil => exact absurd rfl h
    | cons c cs => simp [String.length]

theorem mapGet_mapSet_self {α : Type} (m : List (String × α)) (k : String) (v : α) :
    mapGet (mapSet m k v) k = some v := by
  induction m with
  | nil => simp [mapSet, mapGet, List.find?]
  | cons e rest ih =>
    obtain ⟨k', v'⟩ := e
    by_cases h : k' = k
    · simp [mapSet, h, mapGet, List.find?]
    · simpa [mapSet, h, mapGet, List.find?] using ih

theorem mapGet_mapDelete_self {α : Type} (m : List (String × α)) (k : String) :
    mapGet (mapDelete m k) k = none := by
  induction m with
  | nil => simp [mapDelete, mapGet]
  | cons e rest ih =>
    obtain ⟨k', v'⟩ := e
    by_cases h : k' = k
    · simp only [mapDelete] at ih ⊢
      simpa [h] using ih
    · simp [mapDelete, h, mapGet, List.find?]

theorem mapKeys_cons {α : Type} (e : String × α) (m : List (String × α)) :
    mapKeys (e :: m) = e.1 :: mapKeys m := rfl

theorem mapKeys_mapSet {α : Type} (m : List (String × α)) (k : String) (v : α) :
    mapKeys (mapSet m k v)
      = if k ∈ mapKeys m then mapKeys m else mapKeys m ++ [k] := by
  induction m with
  | nil => simp [mapSet, mapKeys]
  | cons e rest ih =>
    obtain ⟨k', v'⟩ := e
    by_cases h : k' = k
    · subst h
      simp [mapSet, mapKeys_cons]
    · have hne : ¬ k = k' := fun hkk => h hkk.symm
      have hstep : mapSet ((k', v') :: rest) k v = (k', v') :: mapSet rest k v := by
        simp [mapSet, h]
      rw [hstep, mapKeys_cons, ih, mapKeys_cons]
      by_cases hm : k ∈ mapKeys rest
      · simp [hm, List.mem_cons, hne]
      · simp [hm, List.mem_cons, hne]

theorem mapKeys_mapSet_nodup {α : Type} (m : List (String × α)) (k : String) (v : α)
    (h : (mapKeys m).Nodup) : (mapKeys (mapSet m k v)).Nodup := by
  rw [mapKeys_mapSet]
  by_cases hm : k ∈ mapKeys m
  · simpa [hm] using h
  · simp only [hm, if_false]
    simp [List.nodup_append, h, hm]

theorem countKey_mapSet {α : Type} (m : List (String × α)) (k : String) (v : α)
    (h : (mapKeys m).Nodup) :
    (mapKeys (mapSet m k v)).count k = 1 := by
  rw [mapKeys_mapSet]
  by_cases hm : k ∈ mapKeys m
  · rw [if_pos hm]
    exact List.count_eq_one_of_mem h hm
  · rw [if_neg hm, List.count_append]
    simp [List.count_eq_zero_of_not_mem hm]

theorem find?_first_layout {α : Type} (p : α → Bool) :
    ∀ (l : List α) (a : α), l.find? p = some a →
      p a = true ∧ ∃ pre post, l = pre ++ a :: post ∧ ∀ q ∈ pre, p q = false := by
  intro l
  induction l with
  | nil => intro a h; simp at h
  | cons x xs ih =>
    intro a h
    by_cases hx : p x = true
    · rw [List.find?_cons_of_pos _ hx] at h
      injection h with h
      subst h
      exact ⟨hx, [], xs, rfl, by simp⟩
    · have hx' : p x = false := by simpa using hx
      rw [List.find?_cons_of_neg _ (by simp [hx'])] at h
      obtain ⟨hpa, pre, post, hl, hpre⟩ := ih a h
      refine ⟨hpa, x :: pre, post, by rw [hl]; rfl, ?_⟩
      intro q hq
      rcases List.mem_cons.mp hq with rfl | hq
      · exact hx'
      · exact hpre q hq

/-! ## Claim theorems -/

/-- C5: message normalization returns a non-empty string for every payload
shape, recognized or unrecognized; a payload that matches no recognized shape
(every probed field absent) yields the fallback literal "[Message]". -/
theorem normalization_never_empty :
    (∀ mc : MsgContent, 0 < (extractMessageText mc).length)
  ∧ extractMessageText {} = "[Message]" := by
  constructor
  · intro mc
    unfold extractMessageText
    by_cases h : messageTextRaw mc = "" ∨ jsTrim (messageTextRaw mc) = ""
    · simp only [h, if_pos]
      decide
    · simp only [if_neg h]
      push_neg at h
      exact length_pos_of_ne_empty _ h.1
  · rfl

/-- C6 counterexample: the code maps an image payload with caption "hello" to
"hello", not to "[Image]: hello", and maps an audio payload to
"[Audio message]", not to "[Audio Message]". -/
theorem media_caption_shape_cex :
    extractMessageText { imageMessage := some { caption := some "hello" } } = "hello"
  ∧ ("hello" == "[Image]: hello") = false
  ∧ extractMessageText { audioMessage := true } = "[Audio message]"
  ∧ ("[Audio message]" == "[Audio Message]") = false := by
  refine ⟨by decide, by decide, by decide, by decide⟩

/-- C6 amended: an image, video, or document payload carrying a caption that
is non-empty (and not all whitespace) normalizes to the caption text alone;
an image or video without a caption normalizes to "[Image]" or "[Video]", a
document without a caption to "[Document: <fileName>]" (or "[Document: file]"
when it has no file name), and an audio payload to "[Audio message]". -/
theorem media_caption_normalization (c : String) (fn : Option String)
    (hc : ¬ jsTrim c = "") :
    extractMessageText { imageMessage := some { caption := some c } } = c
  ∧ extractMessageText { videoMessage := some { caption := some c } } = c
  ∧ extractMessageText { documentMessage := some { caption := some c, fileName := fn } } = c
  ∧ extractMessageText { imageMessage := some { caption := none } } = "[Image]"
  ∧ extractMessageText { videoMessage := some { caption := none } } = "[Video]"
  ∧ extractMessageText { documentMessage := some { caption := none, fileName := none } }
      = "[Document: file]"
  ∧ extractMessageText { documentMessage := some { caption := none, fileName := some "contract.pdf" } }
      = "[Document: contract.pdf]"
  ∧ extractMessageText { audioMessage := true } = "[Audio message]" := by
  have hce : ¬ c = "" := by
    intro h
    rw [h] at hc
    exact hc rfl
  refine ⟨?_, ?_, ?_, by decide, by decide, by decide, by decide, by decide⟩
  · simp [extractMessageText, messageTextRaw, imageCaption, videoCaption, docCaption,
      optTruthy, jsOrEmpty, hce, hc]
  · simp [extractMessageText, messageTextRaw, imageCaption, videoCaption, docCaption,
      optTruthy, jsOrEmpty, hce, hc]
  · simp [extractMessageText, messageTextRaw, imageCaption, videoCaption, docCaption,
      optTruthy, jsOrEmpty, hce, hc]

/-- C6 witness: the amended normalization at concrete captioned payloads. -/
theorem media_caption_normalization_witness :
    extractMessageText { imageMessage := some { caption := some "sunset pic" } } = "sunset pic" :=
  (media_caption_normalization "sunset pic" none (by decide)).1

/-- C2: a close event whose reason is the explicit logout code schedules no
reconnect, persists status "disconnected" and removes the session from the
registry; a close with any other reason (or none) schedules re-creation of
the same session after 3000 ms and neither touches the persisted status nor
the registry. -/
theorem close_logout_vs_reconnect (reg : List (String × ConnInfo))
    (store : List (String × String)) (sid : String) (code : Option Nat) :
    (code = some loggedOutCode →
        (onConnectionClose reg store sid code).scheduledReconnect = none
      ∧ mapGet (onConnectionClose reg store sid code).sessionStatus sid = some "disconnected"
      ∧ mapGet (onConnectionClose reg store sid code).registry sid = none)
  ∧ (¬ code = some loggedOutCode →
        (onConnectionClose reg store sid code).scheduledReconnect = some (sid, 3000)
      ∧ (onConnectionClose reg store sid code).sessionStatus = store
      ∧ (onConnectionClose reg store sid code).registry = reg) := by
  constructor
  · intro h
    simp [onConnectionClose, h, mapGet_mapSet_self, mapGet_mapDelete_self]
  · intro h
    simp [onConnectionClose, h]

/-- C3: registering (or re-registering) a session replaces any prior registry
entry for that identifier: with distinct keys beforehand, the keys stay
distinct, exactly one entry carries the identifier afterwards, and it is the
fresh connecting handle. -/
theorem registry_at_most_one_handle (m : List (String × ConnInfo)) (sid : String)
    (h : (mapKeys m).Nodup) :
    (mapKeys (registerConnection m sid)).Nodup
  ∧ (mapKeys (registerConnection m sid)).count sid = 1
  ∧ mapGet (registerConnection m sid) sid = some ⟨true, none, "connecting", sid⟩ := by
  exact ⟨mapKeys_mapSet_nodup m sid _ h, countKey_mapSet m sid _ h,
    mapGet_mapSet_self m sid _⟩

/-- C3 witness: re-creating session "s1" over a registry that already holds a
connected handle for "s1" (and one for "s2") leaves one "s1" entry. -/
theorem registry_at_most_one_handle_witness :
    (mapKeys (registerConnection
        [("s1", ⟨true, none, "connected", "s1"⟩), ("s2", ⟨true, none, "connected", "s2"⟩)]
        "s1")).Nodup
  ∧ (mapKeys (registerConnection
        [("s1", ⟨true, none, "connected", "s1"⟩), ("s2", ⟨true, none, "connected", "s2"⟩)]
        "s1")).count "s1" = 1
  ∧ mapGet (registerConnection
        [("s1", ⟨true, none, "connected", "s1"⟩), ("s2", ⟨true, none, "connected", "s2"⟩)]
        "s1") "s1" = some ⟨true, none, "connecting", "s1"⟩ :=
  registry_at_most_one_handle
    [("s1", ⟨true, none, "connected", "s1"⟩), ("s2", ⟨true, none, "connected", "s2"⟩)]
    "s1" (by decide)

/-- C4: for every processed message event the Automation Engine fires at most
once (the dispatcher invocation list grows by at most one call), and an
envelope marked outbound-by-us (`fromMe`) never reaches automation (no
dispatcher invocation is added). -/
theorem automation_at_most_once_never_fromMe (sessionId : String) (msg : WAMsg)
    (rules : List ChatbotRule) (st : PipeState) :
    (msg.key.fromMe = true → (handleIncoming sessionId msg rules st).sends = st.sends)
  ∧ (handleIncoming sessionId msg rules st).sends.length ≤ st.sends.length + 1 := by
  constructor
  · intro hf
    rcases hjid : msg.key.remoteJid with _ | jid <;>
      rcases hmsg : msg.message with _ | mc <;>
        simp [handleIncoming, hjid, hmsg, hf]
  · rcases hjid : msg.key.remoteJid with _ | jid <;>
      rcases hmsg : msg.message with _ | mc <;>
        simp [handleIncoming, hjid, hmsg]
    by_cases hj : jid = ""
    · simp [hj]
    · simp only [hj, if_false]
      by_cases hf : msg.key.fromMe
      · simp [hf]
      · simp only [hf, if_false]
        rcases hm : matchedRuleFor rules (extractMessageText mc) with _ | rule <;>
          simp [hm, Nat.le_succ]

/-- C7: on an inbound envelope the engine selects the first rule in retrieval
order that is active and whose keyword is a case-insensitive substring of the
normalized text; on a match the Outbound Dispatcher is invoked exactly once
with that rule's response targeted at the originating contact address, and on
no match nothing is dispatched. -/
theorem automation_first_match_dispatch
    (sessionId jid : String) (mc : MsgContent) (pushName : Option String)
    (rules : List ChatbotRule) (st : PipeState) (hjid : ¬ jid = "") :
    (matchedRuleFor rules (extractMessageText mc) = none →
      (handleIncoming sessionId ⟨⟨some jid, false⟩, some mc, pushName⟩ rules st).sends
        = st.sends)
  ∧ (∀ rule, matchedRuleFor rules (extractMessageText mc) = some rule →
      (handleIncoming sessionId ⟨⟨some jid, false⟩, some mc, pushName⟩ rules st).sends
        = st.sends ++ [⟨sessionId, jidUser jid, rule.response⟩]
    ∧ rule.isActive = true
    ∧ jsIncludes (jsLower (extractMessageText mc)) (jsLower rule.keyword) = true
    ∧ ∃ pre post, rules = pre ++ rule :: post
        ∧ ∀ q ∈ pre, ruleMatches (extractMessageText mc) q = false) := by
  constructor
  · intro h
    simp [handleIncoming, hjid, h]
  · intro rule h
    have hmatch := find?_first_layout (ruleMatches (extractMessageText mc)) rules rule h
    have hand := hmatch.1
    rw [ruleMatches, Bool.and_eq_true] at hand
    refine ⟨by simp [handleIncoming, hjid, h], hand.1, hand.2, hmatch.2⟩

/-- C10: rule evaluation never consults a rule's optional session scoping:
rewriting every rule's sessionId arbitrarily does not change which rule
matches, and a matched rule scoped to a different session than the one the
message arrived on still fires (the dispatcher is invoked with its response
on the arrival session). -/
theorem rule_session_scoping_ignored :
    (∀ (rules : List ChatbotRule) (text : String) (f : ChatbotRule → Option String),
      matchedRuleFor (rules.map (fun r => { r with sessionId := f r })) text
        = (matchedRuleFor rules text).map (fun r => { r with sessionId := f r }))
  ∧ (∀ (sessionId jid otherSid : String) (mc : MsgContent) (pushName : Option String)
      (rules : List ChatbotRule) (st : PipeState) (rule : ChatbotRule),
      ¬ jid = "" →
      matchedRuleFor rules (extractMessageText mc) = some rule →
      rule.sessionId = some otherSid →
      ¬ otherSid = sessionId →
      (handleIncoming sessionId ⟨⟨some jid, false⟩, some mc, pushName⟩ rules st).sends
        = st.sends ++ [⟨sessionId, jidUser jid, rule.response⟩]) := by
  constructor
  · intro rules text f
    induction rules with
    | nil => rfl
    | cons r rest ih =>
      by_cases hr : ruleMatches text r = true
      · have hr' : ruleMatches text { r with sessionId := f r } = true := hr
        simp [matchedRuleFor, List.find?_cons_of_pos _ hr, List.find?_cons_of_pos _ hr']
      · have hr' : ¬ ruleMatches text { r with sessionId := f r } = true := hr
        simp only [List.map_cons, matchedRuleFor, List.find?_cons_of_neg _ hr',
          List.find?_cons_of_neg _ hr]
        exact ih
  · intro sessionId jid otherSid mc pushName rules st rule hjid h hscope hne
    simp [handleIncoming, hjid, h]

/-- C8: send returns false (never throws) when the session has no registry
entry, no socket, or a cached status other than "connected"; otherwise the
target address is used unchanged when it already contains "@" and gets the
fixed "@s.whatsapp.net" suffix appended when not, and a transport failure is
reported as the boolean result false. -/
theorem sendMessage_contract (reg : List (String × ConnInfo))
    (sessionId toAddr : String) (ok : Bool) :
    (mapGet reg sessionId = none →
      sendMessageRun reg sessionId toAddr ok = (false, none))
  ∧ (∀ c, mapGet reg sessionId = some c → c.hasSock = false →
      sendMessageRun reg sessionId toAddr ok = (false, none))
  ∧ (∀ c, mapGet reg sessionId = some c → ¬ c.status = "connected" →
      sendMessageRun reg sessionId toAddr ok = (false, none))
  ∧ (∀ c, mapGet reg sessionId = some c → c.hasSock = true → c.status = "connected" →
      sendMessageRun reg sessionId toAddr ok
        = (ok, some (if jsIncludes toAddr "@" then toAddr
                     else toAddr ++ "@s.whatsapp.net"))) := by
  refine ⟨?_, ?_, ?_, ?_⟩
  · intro h
    simp [sendMessageRun, h]
  · intro c h hs
    simp [sendMessageRun, h, hs]
  · intro c h hs
    simp only [sendMessageRun, h]
    by_cases hsock : c.hasSock
    · simp [hsock, hs]
    · simp [hsock]
  · intro c h hsock hst
    cases ok <;> simp [sendMessageRun, h, hsock, hst]

/-- C9: with a connected socket-bearing handle registered and a credential
directory present, disconnectSession attempts all four teardown operations in
order whatever fails among them; when the status persist and the credential
removal themselves do not fail, the persisted status ends "disconnected" and
the credential directory is gone, and the registry entry is removed
unconditionally — in particular all of this holds when the logout call
fails. -/
theorem disconnect_teardown (f : DiscFaults) (st : ManagerState) (sid : String)
    (c : ConnInfo) (hc : mapGet st.connections sid = some c) (hs : c.hasSock = true)
    (ha : sid ∈ st.authFiles) :
    (disconnectSessionRun f st sid).2
        = [TeardownStep.logout, TeardownStep.endSock, TeardownStep.persistStatus,
           TeardownStep.removeRegistry, TeardownStep.rmAuth]
  ∧ (f.updateFails = false →
      mapGet (disconnectSessionRun f st sid).1.sessionStatus sid = some "disconnected")
  ∧ mapGet (disconnectSessionRun f st sid).1.connections sid = none
  ∧ (f.rmFails = false → sid ∉ (disconnectSessionRun f st sid).1.authFiles) := by
  refine ⟨?_, ?_, ?_, ?_⟩
  · simp [disconnectSessionRun, hc, hs, ha]
  · intro hu
    simp [disconnectSessionRun, hu, mapGet_mapSet_self]
  · simp [disconnectSessionRun, mapGet_mapDelete_self]
  · intro hr
    simp [disconnectSessionRun, hr, ha, List.mem_filter]

/-- C9 witness: tearing down a connected session "s1" whose logout and socket
end both fail still removes everything and attempts all four operations. -/
theorem disconnect_teardown_witness :
    (disconnectSessionRun ⟨true, true, false, false⟩
        ⟨[("s1", ⟨true, none, "connected", "s1"⟩)], [("s1", "connected")], ["s1"]⟩ "s1").2
        = [TeardownStep.logout, TeardownStep.endSock, TeardownStep.persistStatus,
           TeardownStep.removeRegistry, TeardownStep.rmAuth]
  ∧ ((false : Bool) = false →
      mapGet (disconnectSessionRun ⟨true, true, false, false⟩
        ⟨[("s1", ⟨true, none, "connected", "s1"⟩)], [("s1", "connected")], ["s1"]⟩ "s1").1.sessionStatus "s1"
        = some "disconnected")
  ∧ mapGet (disconnectSessionRun ⟨true, true, false, false⟩
        ⟨[("s1", ⟨true, none, "connected", "s1"⟩)], [("s1", "connected")], ["s1"]⟩ "s1").1.connections "s1" = none
  ∧ ((false : Bool) = false →
      "s1" ∉ (disconnectSessionRun ⟨true, true, false, false⟩
        ⟨[("s1", ⟨true, none, "connected", "s1"⟩)], [("s1", "connected")], ["s1"]⟩ "s1").1.authFiles) :=
  disconnect_teardown ⟨true, true, false, false⟩
    ⟨[("s1", ⟨true, none, "connected", "s1"⟩)], [("s1", "connected")], ["s1"]⟩ "s1"
    ⟨true, none, "connected", "s1"⟩ rfl rfl (by decide)

/-- C1 counterexample: the store accepts a duplicate create —
DatabaseStorage.createConversation is a plain insert and the `conversations`
table declares no unique index on the (session_id, contact_number) pair — so
under the claim's interleaving (both existence checks before either create)
both creates succeed, both ingestions finish normally, and two Conversation
rows exist for (s1, 15551234) instead of exactly one. -/
theorem conversation_create_race_two_rows :
    convCountFor (runSched raceSchedule ⟨[], 0⟩ raceT1 raceT2).1 "s1" "15551234" = 2
  ∧ (runSched raceSchedule ⟨[], 0⟩ raceT1 raceT2).2.1.phase = IngestPhase.done 0
  ∧ (runSched raceSchedule ⟨[], 0⟩ raceT1 raceT2).2.2.phase = IngestPhase.done 1 := by
  decide

/-- C1 amended: under the claimed interleaving both creates succeed (the
insert never fails for duplication), neither ingestion propagates an error,
and two Conversation rows exist for the pair; the catch recovery holds only
for a create failed by the store for some other reason — then the second
ingestion re-queries, adopts the first ingestion's row instead of propagating
the error, and exactly one row remains. -/
theorem conversation_create_race_recovery :
    (convCountFor (runSched raceSchedule ⟨[], 0⟩ raceT1 raceT2).1 "s1" "15551234" = 2
  ∧ (runSched raceSchedule ⟨[], 0⟩ raceT1 raceT2).2.1.phase = IngestPhase.done 0
  ∧ (runSched raceSchedule ⟨[], 0⟩ raceT1 raceT2).2.2.phase = IngestPhase.done 1)
  ∧ (convCountFor (runSched raceScheduleRetry ⟨[], 0⟩ raceT1 raceT2f).1 "s1" "15551234" = 1
  ∧ (runSched raceScheduleRetry ⟨[], 0⟩ raceT1 raceT2f).2.1.phase = IngestPhase.done 0
  ∧ (runSched raceScheduleRetry ⟨[], 0⟩ raceT1 raceT2f).2.2.phase = IngestPhase.done 0) := by
  decide

/-- C7 witness: the spec's own scenario — active rule keyword "price",
response "$10/mo", inbound text "what is the price?" from 15551234@c.us —
dispatches exactly one send of "$10/mo" to 15551234. -/
theorem automation_first_match_dispatch_witness :
    (handleIncoming "s1" ⟨⟨some "15551234@c.us", false⟩,
        some { conversation := some "what is the price?" }, none⟩
        [⟨"r1", "u1", none, "price", "$10/mo", true⟩] {}).sends
      = [⟨"s1", "15551234", "$10/mo"⟩] :=
  ((automation_first_match_dispatch "s1" "15551234@c.us"
      { conversation := some "what is the price?" } none
      [⟨"r1", "u1", none, "price", "$10/mo", true⟩] {} (by decide)).2
    ⟨"r1", "u1", none, "price", "$10/mo", true⟩ (by decide)).1

/-- C10 witness: a rule scoped to session "s2" still fires for a message
arriving on session "s1" owned by the same user. -/
theorem rule_session_scoping_ignored_witness :
    (handleIncoming "s1" ⟨⟨some "777@s.whatsapp.net", false⟩,
        some { conversation := some "ping" }, none⟩
        [⟨"r1", "u1", some "s2", "ping", "pong", true⟩] {}).sends
      = [⟨"s1", "777", "pong"⟩] :=
  rule_session_scoping_ignored.2 "s1" "777@s.whatsapp.net" "s2"
    { conversation := some "ping" } none
    [⟨"r1", "u1", some "s2", "ping", "pong", true⟩] {}
    ⟨"r1", "u1", some "s2", "ping", "pong", true⟩
    (by decide) (by decide) rfl (by decide)
